import Mathlib

/-!
Verification of `source/Scripts/staging_gfal2/state.py`.

The script has four functions: `convert_to_surl` (URL normalization),
`check_status` / `check_status_list` (per-URL residency queries against the
gfal2 backend, batched with a sleep), and `percent_staged` (aggregation).
We embed them shallowly: strings are `String` (or `List Char` where we reason
about substring positions), the gfal2 backend is a function parameter
`Option Ctx` (`none` models a failed `import gfal2`), Python exceptions are
an explicit `Except Err` result, and observable effects (status calls,
`getxattr` calls, `time.sleep(1)` pauses) are counted in a `Stats` record.
-/

/-- Python exceptions that the script can raise, plus the spec's
`NoInputError`.  `noInputError` is modelled from the spec: the spec's error
taxonomy (§7) names a `NoInputError` for empty aggregation input; the source
never raises it, but the constructor is needed to state claims about it. -/
inductive Err where
  /-- Python `NameError: name 'gfal2' is not defined` — raised by
  `gfal2.creat_context()` when the module-level `import gfal2` failed. -/
  | nameErrorGfal2
  /-- Python `UnboundLocalError: local variable 'color' referenced before
  assignment` — raised by the unconditional `print` in `check_status` when
  `verbose` is false, since `color` is only assigned under `if verbose:`. -/
  | unboundLocalColor
  /-- Python `ZeroDivisionError: float division by zero` — raised by
  `percent_staged` when `results` is empty. -/
  | zeroDivisionError
  /-- Modelled from the spec: `NoInputError` (spec §7); absent from the
  source. -/
  | noInputError
deriving DecidableEq, Repr

/- Section:
URL normalization (`convert_to_surl`, state.py lines 73-91).

The per-URL body is
    temp = url.split("/pnfs")[0]
    surls.append(url.replace(temp, "srm://srm.grid.sara.nl:8443", 1))
We model strings as `List Char` so that occurrence positions can be spoken
about, and give Python's `split`-head and `replace(..., 1)` semantics
explicitly.
---------------------------------------------------------------------- -/

/-- Index of the first occurrence of `pat` in `s` (Python `s.find(pat)`,
as an `Option`): `some j` for the least `j` with `pat` a prefix of
`s.drop j`, `none` if `pat` does not occur in `s`. -/
def findSub (pat : List Char) : List Char → Option Nat
  | [] => if pat = [] then some 0 else none
  | c :: rest =>
    if pat.isPrefixOf (c :: rest) then some 0
    else (findSub pat rest).map (· + 1)

/-- Python `s.split(sep)[0]` for non-empty `sep`: the part of `s` before the
first occurrence of `sep`, or all of `s` when `sep` does not occur. -/
def pySplitHead (s sep : List Char) : List Char :=
  match findSub sep s with
  | none => s
  | some j => s.take j

/-- Python `s.replace(pat, repl, 1)`: replace the first occurrence of `pat`
in `s` by `repl`; `s` unchanged when `pat` does not occur.  (For `pat = []`,
Python inserts `repl` in front, which the `some 0` case reproduces.) -/
def pyReplaceFirst (s pat repl : List Char) : List Char :=
  match findSub pat s with
  | none => s
  | some j => s.take j ++ repl ++ s.drop (j + pat.length)

/-- The fixed path marker `"/pnfs"` of `convert_to_surl`. -/
def pnfsMarker : List Char := ['/', 'p', 'n', 'f', 's']

/-- The canonical SURL prefix `"srm://srm.grid.sara.nl:8443"`. -/
def surlBase : List Char := "srm://srm.grid.sara.nl:8443".data

/-- Loop body of `convert_to_surl` (state.py lines 89-90) for one URL:
`temp = url.split("/pnfs")[0]; url.replace(temp, "srm://srm.grid.sara.nl:8443", 1)`. -/
def convert_url (url : List Char) : List Char :=
  pyReplaceFirst url (pySplitHead url pnfsMarker) surlBase

/-- Function `convert_to_surl` (state.py lines 73-91) after the file read: the source
opens the file and splits its contents on whitespace; we take that list of
whitespace-separated URLs as the argument and apply the loop body to each,
in order. -/
def convert_to_surl (urls : List String) : List String :=
  urls.map (fun url => String.mk (convert_url url.data))

/- Section:
Status checking (`check_status`, `check_status_list`, state.py lines 29-70).
---------------------------------------------------------------------- -/

/-- A constructed gfal2 context: `getxattr` as a function of the SURL and
the attribute key.  We model only successful lookups; the script does not
catch lookup failures, and no claim is about them. -/
abbrev Ctx : Type := String → String → String

/-- Counts of the observable effects of a run: `statusCalls` counts entries
into `check_status` (per-URL status queries attempted), `getxattr` counts
attribute lookups issued to the backend, `sleeps` counts `time.sleep(1)`
pauses. -/
structure Stats where
  statusCalls : Nat
  getxattr : Nat
  sleeps : Nat
deriving DecidableEq, Repr

/-- Componentwise accumulation of run statistics. -/
def Stats.add (a b : Stats) : Stats :=
  ⟨a.statusCalls + b.statusCalls, a.getxattr + b.getxattr, a.sleeps + b.sleeps⟩

/-- Function `check_status` (state.py lines 50-70).  The `gfal2` argument is the
module-level import: `none` when `import gfal2` failed, in which case
`gfal2.creat_context()` raises a `NameError` before any lookup.  Otherwise
`status = context.getxattr(surl, 'user.status')`; `color` is assigned only
under `if verbose:`, yet the `print` that uses `color` is unconditional, so
`verbose = false` raises `UnboundLocalError` after the lookup.  On success
the result is the `(surl, status)` pair together with the printed console
line `surl ++ " " ++ color ++ status ++ "\x1b[0m"`, green
(`"\x1b[32m"`) for `ONLINE`/`ONLINE_AND_NEARLINE` and red (`"\x1b[31m"`)
otherwise. -/
def check_status (gfal2 : Option Ctx) (surl : String) (verbose : Bool) :
    Except Err ((String × String) × List String) × Stats :=
  match gfal2 with
  | none => (.error .nameErrorGfal2, ⟨1, 0, 0⟩)
  | some context =>
    let status := context surl "user.status"
    if verbose then
      let color :=
        if status = "ONLINE_AND_NEARLINE" ∨ status = "ONLINE" then "\x1b[32m"
        else "\x1b[31m"
      (.ok ((surl, status), [surl ++ " " ++ color ++ status ++ "\x1b[0m"]),
       ⟨1, 1, 0⟩)
    else
      (.error .unboundLocalColor, ⟨1, 1, 0⟩)

/-- The inner `for sc in s:` loop of `check_status_list`: run `check_status`
on each element in order, appending results; an exception aborts the loop
and propagates (statistics of the completed part are kept). -/
def runBatch (gfal2 : Option Ctx) (verbose : Bool) :
    List String → Except Err (List (String × String)) × Stats
  | [] => (.ok [], ⟨0, 0, 0⟩)
  | sc :: rest =>
    match check_status gfal2 sc verbose with
    | (.error e, st) => (.error e, st)
    | (.ok (r, _lines), st) =>
      match runBatch gfal2 verbose rest with
      | (.error e, st2) => (.error e, st.add st2)
      | (.ok rs, st2) => (.ok (r :: rs), st.add st2)

/-- The `while i<mx:` loop of `check_status_list` (state.py lines 41-47)
with `nf = 100`: process the slice `surls[i:min(i+100,mx)]`, then
`time.sleep(1)` (also after the final batch), then continue with the rest.
An exception inside a batch propagates before that batch's sleep. -/
def check_status_go (gfal2 : Option Ctx) (verbose : Bool)
    (surls : List String) : Except Err (List (String × String)) × Stats :=
  match surls with
  | [] => (.ok [], ⟨0, 0, 0⟩)
  | c :: rest =>
    match runBatch gfal2 verbose ((c :: rest).take 100) with
    | (.error e, st) => (.error e, st)
    | (.ok rs, st) =>
      match check_status_go gfal2 verbose ((c :: rest).drop 100) with
      | (.error e, st2) => (.error e, (st.add ⟨0, 0, 1⟩).add st2)
      | (.ok rs2, st2) => (.ok (rs ++ rs2), (st.add ⟨0, 0, 1⟩).add st2)
termination_by surls.length
decreasing_by simp [List.length_drop]; omega

/-- Function `check_status_list` (state.py lines 29-48): batched status checks over
the whole SURL list. -/
def check_status_list (gfal2 : Option Ctx) (surls : List String)
    (verbose : Bool) : Except Err (List (String × String)) × Stats :=
  check_status_go gfal2 verbose surls

/- Section:
Aggregation (`percent_staged`, state.py lines 93-106).
---------------------------------------------------------------------- -/

/-- Source line `staged = counts['ONLINE_AND_NEARLINE'] + counts['ONLINE']`
(state.py line 102): `Counter` counts exact string matches among the
status components. -/
def stagedCount (results : List (String × String)) : Nat :=
  results.countP (fun x => x.2 == "ONLINE_AND_NEARLINE") +
    results.countP (fun x => x.2 == "ONLINE")

/-- Source line `unstaged = counts['NEARLINE ']` (state.py line 103): note the trailing
space in the key, exactly as in the source. -/
def unstagedCount (results : List (String × String)) : Nat :=
  results.countP (fun x => x.2 == "NEARLINE ")

/-- Function `percent_staged` (state.py lines 93-106).  Python's
`(float(staged)/total_files)*100` raises `ZeroDivisionError` when
`total_files = 0`; otherwise we model the real value of the float
computation in `ℚ`.  (The source wraps the number in `str` for printing;
we keep the numeric value.) -/
def percent_staged (results : List (String × String)) : Except Err ℚ :=
  let total_files := results.length
  let staged := stagedCount results
  let _unstaged := unstagedCount results
  if total_files = 0 then .error .zeroDivisionError
  else .ok (((staged : ℚ) / (total_files : ℚ)) * 100)

/-- The module-level import guard (state.py lines 22-26):
`try: import gfal2 except ImportError: print(...); pass`.  It never raises;
on failure it prints a warning line and execution continues with no usable
`gfal2` binding. -/
def importGfal2 (gfal2lib : Option Ctx) : Option Ctx × List String :=
  match gfal2lib with
  | some g => (some g, [])
  | none => (none, ["GFAL2 LIBRARY CANNOT BE IMPORTED"])

/-- The `__main__` block (state.py lines 110-114), after the input file has
been read and split into `urls`: normalize, check statuses (with the default
`verbose=True`), aggregate. -/
def mainRun (gfal2lib : Option Ctx) (urls : List String) :
    Except Err ℚ × Stats :=
  let imported := importGfal2 gfal2lib
  let surls := convert_to_surl urls
  match check_status_list imported.1 surls true with
  | (.error e, st) => (.error e, st)
  | (.ok results, st) => (percent_staged results, st)

/- Section:
Lemmas about the substring search underlying `convert_to_surl`.
---------------------------------------------------------------------- -/

/-- When `findSub` reports an occurrence at `j`, the pattern is indeed a
prefix of `s.drop j`, and `j` is a position inside `s`. -/
theorem findSub_spec (pat : List Char) :
    ∀ (s : List Char) (j : Nat), findSub pat s = some j →
      pat.isPrefixOf (s.drop j) = true ∧ j ≤ s.length := by
  intro s
  induction s with
  | nil =>
    intro j h
    by_cases hp : pat = [] <;> simp [findSub, hp] at h
    subst h
    simp [hp, List.isPrefixOf]
  | cons c rest ih =>
    intro j h
    by_cases hp : pat.isPrefixOf (c :: rest) = true <;> simp [findSub, hp] at h
    · subst h
      simpa using hp
    · obtain ⟨j', hj', rfl⟩ := h
      obtain ⟨h1, h2⟩ := ih j' hj'
      refine ⟨?_, by simpa using Nat.succ_le_succ h2⟩
      simpa [List.drop_succ_cons] using h1

/-- Every `take`-prefix passes `isPrefixOf`. -/
theorem take_isPrefixOf : ∀ (s : List Char) (j : Nat),
    (s.take j).isPrefixOf s = true := by
  intro s
  induction s with
  | nil => intro j; cases j <;> rfl
  | cons c rest ih =>
    intro j
    cases j with
    | zero => rfl
    | succ n => simp [List.take, List.isPrefixOf, ih]

/-- A pattern that is a prefix of `s` is found at position `0`. -/
theorem findSub_prefix_zero : ∀ (pat s : List Char),
    pat.isPrefixOf s = true → findSub pat s = some 0 := by
  intro pat s h
  cases s with
  | nil =>
    cases pat with
    | nil => simp [findSub]
    | cons a as => simp [List.isPrefixOf] at h
  | cons c rest => simp [findSub, h]

/-- When the marker occurs first at position `j`, `convert_url` yields the
canonical SURL base followed by the suffix of the URL from `j` on,
unchanged. -/
theorem convert_url_marker (url : List Char) (j : Nat)
    (h : findSub pnfsMarker url = some j) :
    convert_url url = surlBase ++ url.drop j := by
  obtain ⟨_, hlen⟩ := findSub_spec pnfsMarker url j h
  have hsplit : pySplitHead url pnfsMarker = url.take j := by
    simp [pySplitHead, h]
  have hfind : findSub (url.take j) url = some 0 :=
    findSub_prefix_zero _ _ (take_isPrefixOf url j)
  simp [convert_url, hsplit, pyReplaceFirst, hfind, List.length_take,
    Nat.min_eq_left hlen]

/-- C1: for every input URL containing the marker `"/pnfs"`, `convert_url`
(the loop body of `convert_to_surl`) produces
`"srm://srm.grid.sara.nl:8443"` followed by the URL's suffix from the first
occurrence of `"/pnfs"` onward, byte-for-byte; in particular
`convert_to_surl` maps `/pnfs/a/file1` and `gsiftp://host/pnfs/b/file2` to
`srm://srm.grid.sara.nl:8443/pnfs/a/file1` and
`srm://srm.grid.sara.nl:8443/pnfs/b/file2`. -/
theorem C1_normalizer_canonical :
    (∀ (url : List Char) (j : Nat), findSub pnfsMarker url = some j →
        convert_url url = surlBase ++ url.drop j) ∧
    convert_to_surl ["/pnfs/a/file1", "gsiftp://host/pnfs/b/file2"] =
      ["srm://srm.grid.sara.nl:8443/pnfs/a/file1",
       "srm://srm.grid.sara.nl:8443/pnfs/b/file2"] :=
  ⟨convert_url_marker, by decide⟩

/-- Witness for C1 at the concrete URL `"/pnfs/a/file1"`, where the marker
occurs first at position `0`. -/
theorem C1_normalizer_canonical_witness :
    findSub pnfsMarker "/pnfs/a/file1".data = some 0 ∧
    convert_url "/pnfs/a/file1".data =
      surlBase ++ ("/pnfs/a/file1".data.drop 0) :=
  ⟨by decide, C1_normalizer_canonical.1 _ 0 (by decide)⟩

/-- C10: for every input URL in which the marker `"/pnfs"` does not occur,
`convert_url` discards the whole URL and returns exactly the constant
`"srm://srm.grid.sara.nl:8443"` (no failure, no pass-through). -/
theorem C10_no_marker_constant (url : List Char)
    (h : findSub pnfsMarker url = none) : convert_url url = surlBase := by
  have hsplit : pySplitHead url pnfsMarker = url := by
    simp [pySplitHead, h]
  have hrefl : url.isPrefixOf url = true := by
    have h2 := take_isPrefixOf url url.length
    rwa [List.take_length] at h2
  have hfind : findSub url url = some 0 := findSub_prefix_zero _ _ hrefl
  simp [convert_url, hsplit, pyReplaceFirst, hfind, List.drop_length]

/-- Witness for C10 at the concrete URL `"http://example.org/data"`. -/
theorem C10_no_marker_constant_witness :
    findSub pnfsMarker "http://example.org/data".data = none ∧
    convert_url "http://example.org/data".data = surlBase :=
  ⟨by decide, C10_no_marker_constant _ (by decide)⟩

/- Section:
Lemmas about the batched status checks.
---------------------------------------------------------------------- -/

/-- With a constructed context and `verbose = true`, the inner batch loop
returns one `(surl, getxattr surl "user.status")` pair per SURL, in order,
issuing one status call and one attribute lookup per SURL and no sleep. -/
theorem runBatch_ok (ctx : Ctx) (l : List String) :
    runBatch (some ctx) true l =
      (Except.ok (l.map (fun s => (s, ctx s "user.status"))),
       ⟨l.length, l.length, 0⟩) := by
  induction l with
  | nil => rfl
  | cons c rest ih =>
    simp [runBatch, check_status, ih, Stats.add, Nat.add_comm]

/-- With a constructed context and `verbose = true`, the batching loop
returns all results in order and accumulates `l.length` status calls,
`l.length` attribute lookups, and `⌈l.length / 100⌉` sleeps (the version
with an explicit bound on the length, for induction). -/
theorem check_status_go_ok_aux (ctx : Ctx) :
    ∀ (n : Nat) (l : List String), l.length ≤ n →
      check_status_go (some ctx) true l =
        (Except.ok (l.map (fun s => (s, ctx s "user.status"))),
         ⟨l.length, l.length, (l.length + 99) / 100⟩) := by
  intro n
  induction n with
  | zero =>
    intro l hl
    have hnil : l = [] := List.eq_nil_of_length_eq_zero (Nat.le_zero.mp hl)
    subst hnil
    simp [check_status_go]
  | succ n ih =>
    intro l hl
    match l with
    | [] => simp [check_status_go]
    | c :: rest =>
      rw [check_status_go, runBatch_ok,
        ih ((c :: rest).drop 100) (by simp [List.length_drop] at hl ⊢; omega)]
      have hmap : ((c :: rest).take 100).map (fun s => (s, ctx s "user.status")) ++
          ((c :: rest).drop 100).map (fun s => (s, ctx s "user.status")) =
          (c :: rest).map (fun s => (s, ctx s "user.status")) := by
        rw [← List.map_append, List.take_append_drop]
      simp only [Stats.add, hmap, List.length_take, List.length_drop,
        List.length_cons]
      refine Prod.ext rfl ?_
      simp only [Stats.mk.injEq]
      omega

/-- The bound-free form of `check_status_go_ok_aux`. -/
theorem check_status_go_ok (ctx : Ctx) (l : List String) :
    check_status_go (some ctx) true l =
      (Except.ok (l.map (fun s => (s, ctx s "user.status"))),
       ⟨l.length, l.length, (l.length + 99) / 100⟩) :=
  check_status_go_ok_aux ctx l.length l le_rfl

/-- When the gfal2 import failed, the first per-URL status check raises a
`NameError` at `gfal2.creat_context()`: one status call is attempted, no
attribute lookup is issued, no sleep happens. -/
theorem check_status_go_none (l : List String) (h : l ≠ []) :
    check_status_go none true l =
      (Except.error Err.nameErrorGfal2, ⟨1, 0, 0⟩) := by
  match l with
  | c :: rest =>
    rw [check_status_go, show (100 : Nat) = 99 + 1 from rfl,
      List.take_succ_cons]
    simp [runBatch, check_status]

/-- C5: for every list of K URLs (with the backend constructed and the
default `verbose=True`), `check_status_list` issues exactly K status
queries — one `getxattr` call per URL — and performs exactly
`⌈K/100⌉ = (K + 99) / 100` sleeps of 1 second, the final batch also
incurring its sleep. -/
theorem C5_batch_query_and_pause_counts (ctx : Ctx) (surls : List String) :
    (check_status_list (some ctx) surls true).2 =
      ⟨surls.length, surls.length, (surls.length + 99) / 100⟩ := by
  rw [check_status_list, check_status_go_ok]

/-- C8: for every list of canonical URLs (with the backend constructed and
the default `verbose=True`), `check_status_list` returns exactly one Result
pair per input URL, in input order, the first component of each Result being
the corresponding input URL unchanged. -/
theorem C8_results_in_input_order (ctx : Ctx) (surls : List String) :
    ∃ results,
      (check_status_list (some ctx) surls true).1 = Except.ok results ∧
      results.length = surls.length ∧
      results.map Prod.fst = surls := by
  refine ⟨surls.map (fun s => (s, ctx s "user.status")), ?_, by simp, ?_⟩
  · rw [check_status_list, check_status_go_ok]
  · simp [List.map_map, Function.comp_def]

/-- C9: with a constructed backend context, `check_status` with
`verbose = false` always fails with the uninitialized-variable error for
`color` (the unconditional print uses `color`, assigned only under the
verbose branch) and returns nothing; with `verbose = true` it is total and
returns a result. -/
theorem C9_verbose_false_always_fails (ctx : Ctx) (surl : String) :
    (check_status (some ctx) surl false).1 =
      Except.error Err.unboundLocalColor ∧
    ∃ r, (check_status (some ctx) surl true).1 = Except.ok r :=
  ⟨rfl, ⟨_, rfl⟩⟩

/-- C7: evaluation of `check_status` at the failing input.  With
`verbose = false` the echo is still attempted and aborts with the
uninitialized `color` — the code does not echo conditionally and does not
return the pair; with `verbose = true` the echo is the green-colored line
for the disk-resident status `ONLINE`. -/
theorem C7_echo_eval :
    (check_status (some (fun _ _ => "ONLINE"))
        "srm://srm.grid.sara.nl:8443/pnfs/a/file1" false).1 =
      Except.error Err.unboundLocalColor ∧
    (check_status (some (fun _ _ => "ONLINE"))
        "srm://srm.grid.sara.nl:8443/pnfs/a/file1" true).1 =
      Except.ok (("srm://srm.grid.sara.nl:8443/pnfs/a/file1", "ONLINE"),
        ["srm://srm.grid.sara.nl:8443/pnfs/a/file1 \x1b[32mONLINE\x1b[0m"]) := by
  constructor <;> rfl

/-- C4 counterexample: with the gfal2 import failed, the import guard
completes (no startup failure) and the run with one URL still attempts a
per-URL status query (`statusCalls = 1`), failing there with a `NameError`
— not at startup. -/
theorem C4_counterexample :
    (importGfal2 none).1 = none ∧
    (mainRun none ["/pnfs/a/file1"]).2.statusCalls = 1 ∧
    (mainRun none ["/pnfs/a/file1"]).1 = Except.error Err.nameErrorGfal2 := by
  have h := check_status_go_none (convert_to_surl ["/pnfs/a/file1"])
    (by decide)
  refine ⟨rfl, ?_, ?_⟩ <;>
    simp [mainRun, check_status_list, importGfal2, h]

/-- C4 (amended): if the gfal2 library is unavailable, the import guard
prints a warning and the program proceeds past startup; for any non-empty
URL list, the first per-URL status check then fails with a `NameError` at
client construction — before any attribute lookup (`getxattr = 0`) is
issued against the backend, and before any sleep. -/
theorem C4_import_failure_surfaces_per_url (urls : List String)
    (h : urls ≠ []) :
    (mainRun none urls).1 = Except.error Err.nameErrorGfal2 ∧
    (mainRun none urls).2 = ⟨1, 0, 0⟩ := by
  have hne : convert_to_surl urls ≠ [] := by
    simpa [convert_to_surl] using h
  have hgo := check_status_go_none (convert_to_surl urls) hne
  constructor <;> simp [mainRun, check_status_list, importGfal2, hgo]

/-- Witness for the amended C4 at the concrete URL list `["/pnfs/a/file1"]`. -/
theorem C4_import_failure_surfaces_per_url_witness :
    (mainRun none ["/pnfs/a/file1"]).1 = Except.error Err.nameErrorGfal2 ∧
    (mainRun none ["/pnfs/a/file1"]).2 = ⟨1, 0, 0⟩ :=
  C4_import_failure_surfaces_per_url ["/pnfs/a/file1"] (by decide)

/- Section:
Lemmas about the aggregation.
---------------------------------------------------------------------- -/

/-- The two staged statuses are mutually exclusive exact matches, so the
staged tally never exceeds the number of Results. -/
theorem stagedCount_le (results : List (String × String)) :
    stagedCount results ≤ results.length := by
  induction results with
  | nil => simp [stagedCount]
  | cons x l ih =>
    by_cases h1 : x.2 = "ONLINE_AND_NEARLINE" <;> by_cases h2 : x.2 = "ONLINE"
    · exact absurd (h1.symm.trans h2) (by decide)
    all_goals
      (simp [stagedCount, List.countP_cons, h1, h2] at ih ⊢; try omega)

/-- C2: for every non-empty Result list, `percent_staged` reports exactly
`100 × stagedCount / total` (the staged statuses being the exact matches
`ONLINE` and `ONLINE_AND_NEARLINE`); this value lies in `[0, 100]`; and on
`[(url1, ONLINE), (url2, NEARLINE), (url3, ONLINE_AND_NEARLINE)]` it equals
`200/3 = 66.666...`. -/
theorem C2_percent_value_and_bounds (results : List (String × String))
    (h : results ≠ []) :
    percent_staged results =
      Except.ok (100 * (stagedCount results : ℚ) / results.length) ∧
    0 ≤ 100 * (stagedCount results : ℚ) / results.length ∧
    100 * (stagedCount results : ℚ) / results.length ≤ 100 ∧
    percent_staged [("url1", "ONLINE"), ("url2", "NEARLINE"),
      ("url3", "ONLINE_AND_NEARLINE")] = Except.ok (200 / 3) := by
  have hlen : results.length ≠ 0 := by
    simpa [List.length_eq_zero] using h
  have hpos : (0 : ℚ) < results.length := by
    exact_mod_cast Nat.pos_of_ne_zero hlen
  refine ⟨?_, ?_, ?_, ?_⟩
  · simp only [percent_staged, hlen, if_false]
    congr 1
    ring
  · positivity
  · rw [mul_div_assoc]
    have hle : (stagedCount results : ℚ) ≤ results.length := by
      exact_mod_cast stagedCount_le results
    have h1 : (stagedCount results : ℚ) / results.length ≤ 1 :=
      (div_le_one hpos).mpr hle
    calc 100 * ((stagedCount results : ℚ) / results.length)
        ≤ 100 * 1 := by exact mul_le_mul_of_nonneg_left h1 (by norm_num)
      _ = 100 := by norm_num
  · have hs : stagedCount [("url1", "ONLINE"), ("url2", "NEARLINE"),
        ("url3", "ONLINE_AND_NEARLINE")] = 2 := by decide
    simp only [percent_staged, hs, List.length_cons, List.length_nil]
    norm_num

/-- Witness for C2 at the three-element example Result list. -/
theorem C2_percent_value_and_bounds_witness :
    percent_staged [("url1", "ONLINE"), ("url2", "NEARLINE"),
      ("url3", "ONLINE_AND_NEARLINE")] = Except.ok (200 / 3) ∧
    (0 : ℚ) ≤ 200 / 3 ∧ (200 / 3 : ℚ) ≤ 100 :=
  ⟨(C2_percent_value_and_bounds [("url1", "ONLINE"), ("url2", "NEARLINE"),
      ("url3", "ONLINE_AND_NEARLINE")] (by decide)).2.2.2,
    by norm_num, by norm_num⟩

/-- C3 counterexample: on the empty Result list `percent_staged` raises the
division-by-zero error, not the spec's `NoInputError`. -/
theorem C3_counterexample :
    percent_staged [] ≠ Except.error Err.noInputError ∧
    percent_staged [] = Except.error Err.zeroDivisionError := by
  constructor
  · intro hcontra
    simp [percent_staged] at hcontra
  · rfl

/-- C3 (amended): on the empty Result list the aggregator fails with the
division-by-zero error of `float(staged)/total_files` — it neither raises
`NoInputError` nor produces a NaN result (in this model every non-error
result is a rational number, so no NaN exists on the success path). -/
theorem C3_zero_division_on_empty :
    percent_staged [] = Except.error Err.zeroDivisionError := rfl

/-- C6: evaluation at the failing input.  The staged tally does match
`ONLINE` / `ONLINE_AND_NEARLINE` exactly and counts nothing else, but the
tape-only tally matches the literal `"NEARLINE "` (trailing space), so a
Result with the canonical status `"NEARLINE"` is not counted in it, while
only the spurious `"NEARLINE "` value is. -/
theorem C6_trailing_space_eval :
    unstagedCount [("url1", "NEARLINE")] = 0 ∧
    unstagedCount [("url1", "NEARLINE ")] = 1 ∧
    stagedCount [("u1", "ONLINE"), ("u2", "ONLINE_AND_NEARLINE"),
      ("u3", "NEARLINE"), ("u4", "OTHER")] = 2 := by
  refine ⟨by decide, by decide, by decide⟩

